import Mathlib

/-!
# Verification of the PromptFusion engine

Shallow embedding of `src/core/promptFusionEngine.js` and
`src/unnamed/part_000` (`determineWeights`).  JavaScript numbers are
modelled as exact rationals (`ℚ`); the decimal literals of the source
(0.5, 0.3, 0.2, 0.001, 0.6, 0.4) are exact.  JavaScript's number-to-string
conversion inside template literals is abstracted as `toString : ℚ → String`;
no property below depends on the digit rendering.  `String.prototype.trim`
and case-insensitive matching are modelled by structural recursion over the
character list (`jsTrim`, `jsToLower`), covering the ASCII characters that
occur in the engine's fixed word patterns.
-/

/-- Models the JS `weights` object argument: a field holding `none` models a
missing/`undefined` key.  The destructuring
`const { base: baseWeight = 0.5, brain: brainWeight = 0.3, persona: personaWeight = 0.2 } = weights`
applies each default per key, exactly when that key is `undefined`. -/
structure WeightsObj where
  base : Option ℚ
  brain : Option ℚ
  persona : Option ℚ
deriving DecidableEq

/-- `baseWeight` after destructuring with default `0.5`. -/
def baseW (weights : WeightsObj) : ℚ := weights.base.getD 0.5

/-- `brainWeight` after destructuring with default `0.3`. -/
def brainW (weights : WeightsObj) : ℚ := weights.brain.getD 0.3

/-- `personaWeight` after destructuring with default `0.2`. -/
def personaW (weights : WeightsObj) : ℚ := weights.persona.getD 0.2

/-- `const weightSum = baseWeight + brainWeight + personaWeight`. -/
def weightSum (weights : WeightsObj) : ℚ := baseW weights + brainW weights + personaW weights

/-- The two throw sites of the engine, modelled structurally: the
`InvalidWeightDistribution` message carries the computed sum
(`got ${weightSum}`), the `UnknownStrategy` message carries the requested
strategy name. -/
inductive FusionError where
  | invalidWeightDistribution (sum : ℚ)
  | unknownStrategy (strategy : String)
deriving DecidableEq

/-- Embedding of `String.prototype.trim` as used by `.trim()` on the fused
result: drop leading and trailing whitespace characters. -/
def jsTrim (s : String) : String :=
  ⟨((s.data.dropWhile Char.isWhitespace).reverse.dropWhile Char.isWhitespace).reverse⟩

/-- One conditional block of `weightedFusion`:
`if (prompt && weight > 0) fusedPrompt += "[MARKER:w]\n" ++ prompt ++ "\n\n"`. -/
def numericBlock (marker : String) (prompt : String) (weight : ℚ) : String :=
  if prompt ≠ "" ∧ 0 < weight then
    "[" ++ marker ++ ":" ++ toString weight ++ "]\n" ++ prompt ++ "\n\n"
  else ""

/-- `weightedFusion(basePrompt, brainPrompt, personaPrompt, weights)`. -/
def weightedFusion (basePrompt brainPrompt personaPrompt : String) (weights : WeightsObj) :
    Except FusionError String :=
  if |weightSum weights - 1| > 0.001 then
    .error (.invalidWeightDistribution (weightSum weights))
  else
    .ok (jsTrim (numericBlock "BASE_WEIGHT" basePrompt (baseW weights)
      ++ numericBlock "BRAIN_WEIGHT" brainPrompt (brainW weights)
      ++ numericBlock "PERSONA_WEIGHT" personaPrompt (personaW weights)))

/-- `getSemanticEmphasis(weight)`. -/
def getSemanticEmphasis (weight : ℚ) : String :=
  if weight ≥ 0.6 then "CRITICAL PRIORITY - MUST FOLLOW"
  else if weight ≥ 0.4 then "HIGH IMPORTANCE"
  else if weight ≥ 0.2 then "MODERATE GUIDANCE"
  else "OPTIONAL CONSIDERATION"

/-- One conditional block of `semanticWeightedFusion`:
`if (prompt && weight > 0) fusedPrompt += "[NAME - emphasis]\n" ++ prompt ++ "\n\n"`. -/
def semanticBlock (displayName : String) (prompt : String) (weight : ℚ) : String :=
  if prompt ≠ "" ∧ 0 < weight then
    "[" ++ displayName ++ " - " ++ getSemanticEmphasis weight ++ "]\n" ++ prompt ++ "\n\n"
  else ""

/-- The array literal of `generateConflictResolutionRules` before filtering:
`[{name: 'PERSONA', ...}, {name: 'BRAIN', ...}, {name: 'BASE', ...}]`,
with the same per-key defaulted weights. -/
def layerTriple (weights : WeightsObj) : List (String × ℚ) :=
  [("PERSONA", personaW weights), ("BRAIN", brainW weights), ("BASE", baseW weights)]

/-- Stable insertion for `Array.prototype.sort((a, b) => b.weight - a.weight)`:
an element is placed before the first strictly lighter element, after earlier
elements of equal weight. -/
def insertByWeight (x : String × ℚ) : List (String × ℚ) → List (String × ℚ)
  | [] => [x]
  | y :: ys => if x.2 ≥ y.2 then x :: y :: ys else y :: insertByWeight x ys

/-- Stable sort by descending weight, modelling the ECMAScript stable
`Array.prototype.sort` with comparator `(a, b) => b.weight - a.weight`. -/
def sortByWeightDesc : List (String × ℚ) → List (String × ℚ)
  | [] => []
  | x :: xs => insertByWeight x (sortByWeightDesc xs)

/-- `.filter(l => l.weight > 0).sort((a, b) => b.weight - a.weight)` applied
to the layer array of `generateConflictResolutionRules`. -/
def sortedLayers (weights : WeightsObj) : List (String × ℚ) :=
  sortByWeightDesc ((layerTriple weights).filter (fun l => decide (0 < l.2)))

/-- The `layers.forEach((layer, index) => rules += ...)` loop: renders
`"N. NAME instructions (weight: W)\n"` for each entry. -/
def renderRuleLines : List (String × ℚ) → Nat → String
  | [], _ => ""
  | l :: ls, idx =>
      toString (idx + 1) ++ ". " ++ l.1 ++ " instructions (weight: " ++ toString l.2 ++ ")\n"
        ++ renderRuleLines ls (idx + 1)

/-- `generateConflictResolutionRules(weights)`. -/
def generateConflictResolutionRules (weights : WeightsObj) : String :=
  "\n[CONFLICT RESOLUTION RULES]\nWhen instructions conflict, apply this priority order:\n"
    ++ renderRuleLines (sortedLayers weights) 0
    ++ "\nAlways prioritize higher-weighted layers when resolving conflicts.\n"

/-- `semanticWeightedFusion(basePrompt, brainPrompt, personaPrompt, weights)`. -/
def semanticWeightedFusion (basePrompt brainPrompt personaPrompt : String) (weights : WeightsObj) :
    Except FusionError String :=
  if |weightSum weights - 1| > 0.001 then
    .error (.invalidWeightDistribution (weightSum weights))
  else
    .ok (jsTrim (semanticBlock "BASE LAYER" basePrompt (baseW weights)
      ++ semanticBlock "BRAIN CONFIGURATION" brainPrompt (brainW weights)
      ++ semanticBlock "PERSONA INSTRUCTIONS" personaPrompt (personaW weights)
      ++ generateConflictResolutionRules weights))

/-- One entry of the `opposingPatterns` array: each regex
`/w1|w2|.../i` is a case-insensitive alternation of plain words, modelled as
the word list. -/
structure OpposingPattern where
  pattern1 : List String
  pattern2 : List String
  type : String
deriving DecidableEq

/-- The `opposingPatterns` array of `detectConflicts`. -/
def opposingPatterns : List OpposingPattern :=
  [⟨["verbose", "detailed", "comprehensive"], ["concise", "brief", "short"], "verbosity"⟩,
   ⟨["formal", "professional"], ["casual", "informal"], "tone"⟩,
   ⟨["fast", "quick", "immediate"], ["careful", "thorough", "deliberate"], "speed"⟩,
   ⟨["creative", "innovative"], ["conservative", "traditional"], "approach"⟩]

/-- ASCII lower-casing of a string's characters, modelling the effect of the
`/i` regex flag on the engine's ASCII word patterns. -/
def jsToLower (s : String) : List Char := s.data.map Char.toLower

/-- `pattern.test(prompt)` for an alternation of plain words with `/i`:
some word occurs as a substring of the lower-cased prompt. -/
def patternTest (alts : List String) (prompt : String) : Bool :=
  alts.any (fun alt => decide (alt.data <:+: jsToLower prompt))

/-- The push condition `(has1in1 && has2in2) || (has2in1 && has1in2)`. -/
def crossMatch (pat : OpposingPattern) (prompt1 prompt2 : String) : Bool :=
  (patternTest pat.pattern1 prompt1 && patternTest pat.pattern2 prompt2)
    || (patternTest pat.pattern2 prompt1 && patternTest pat.pattern1 prompt2)

/-- A detected conflict as pushed by `detectConflicts`. -/
structure ConflictRecord where
  type : String
  layer1 : String
  layer2 : String
  description : String
deriving DecidableEq

/-- One iteration `(i, j)` of the nested pair loop: the two layer names
(`layers[i]`, `layers[j]`) and their prompt texts. -/
structure LayerPair where
  layer1 : String
  layer2 : String
  text1 : String
  text2 : String
deriving DecidableEq

/-- The pairs visited by `for i; for j = i+1` over `['base','brain','persona']`. -/
def layerPairs (basePrompt brainPrompt personaPrompt : String) : List LayerPair :=
  [⟨"base", "brain", basePrompt, brainPrompt⟩,
   ⟨"base", "persona", basePrompt, personaPrompt⟩,
   ⟨"brain", "persona", brainPrompt, personaPrompt⟩]

/-- Records pushed for one layer pair: skipped entirely when either prompt is
falsy (`if (!prompt1 || !prompt2) continue`), otherwise one record per
opposing pattern whose cross-match fires. -/
def pairConflicts (pr : LayerPair) : List ConflictRecord :=
  if pr.text1 ≠ "" ∧ pr.text2 ≠ "" then
    (opposingPatterns.filter (fun pat => crossMatch pat pr.text1 pr.text2)).map
      (fun pat =>
        ⟨pat.type, pr.layer1, pr.layer2,
          "Conflicting " ++ pat.type ++ " instructions between "
            ++ pr.layer1 ++ " and " ++ pr.layer2⟩)
  else []

/-- `detectConflicts(basePrompt, brainPrompt, personaPrompt)`. -/
def detectConflicts (basePrompt brainPrompt personaPrompt : String) : List ConflictRecord :=
  (layerPairs basePrompt brainPrompt personaPrompt).flatMap pairConflicts

/-- The `layers` argument of `fusePrompts`. -/
structure Layers where
  base : String
  brain : String
  persona : String
deriving DecidableEq

/-- Names of `Object.prototype` members, all of which hold truthy values
(functions, and `Object.prototype` itself for `__proto__`).
`this.fusionStrategies` is an object literal, so the property read
`this.fusionStrategies[strategy]` falls back to these inherited members. -/
def objectProtoMembers : List String :=
  ["constructor", "hasOwnProperty", "isPrototypeOf", "propertyIsEnumerable",
   "toLocaleString", "toString", "valueOf",
   "__defineGetter__", "__defineSetter__", "__lookupGetter__", "__lookupSetter__",
   "__proto__"]

/-- Value of the property read `this.fusionStrategies[strategy]` on
`{ weighted: ..., semanticWeighted: ... }`: an own property, an inherited
`Object.prototype` member (truthy, so it survives the `!fusionStrategy`
check), or `undefined`. -/
inductive StrategyVal where
  | weighted
  | semanticWeighted
  | protoMember (member : String)
deriving DecidableEq

/-- JS property lookup on `this.fusionStrategies`, own properties first,
then the `Object.prototype` chain. -/
def fusionStrategiesLookup (strategy : String) : Option StrategyVal :=
  if strategy = "weighted" then some .weighted
  else if strategy = "semanticWeighted" then some .semanticWeighted
  else if strategy ∈ objectProtoMembers then some (.protoMember strategy)
  else none

/-- Outcome of `fusePrompts`: a fused string, a thrown error, or the result
of invoking an inherited `Object.prototype` member in place of a fusion
strategy (e.g. `Object.prototype.toString`, which returns
`"[object Undefined]"` rather than fusing anything). -/
inductive FuseOutcome where
  | ok (s : String)
  | err (e : FusionError)
  | protoInvoke (member : String)
deriving DecidableEq

/-- `fusePrompts(layers, strategy, weights)` (the source defaults
`strategy = 'semanticWeighted'`, `weights = {}` are supplied by the caller
here; `{}` is `⟨none, none, none⟩`). -/
def fusePrompts (layers : Layers) (strategy : String) (weights : WeightsObj) : FuseOutcome :=
  match fusionStrategiesLookup strategy with
  | none => .err (.unknownStrategy strategy)
  | some .weighted =>
      match weightedFusion layers.base layers.brain layers.persona weights with
      | .ok s => .ok s
      | .error e => .err e
  | some .semanticWeighted =>
      match semanticWeightedFusion layers.base layers.brain layers.persona weights with
      | .ok s => .ok s
      | .error e => .err e
  | some (.protoMember m) => .protoInvoke m

/-- A fully supplied weight distribution, as returned by the Weight
Resolver (`determineWeights` in `src/unnamed/part_000`). -/
structure WeightDist where
  base : ℚ
  brain : ℚ
  persona : ℚ
deriving DecidableEq

/-- Passing a resolver distribution as the `weights` object of a fusion
call: every key is present. -/
def toWeightsObj (d : WeightDist) : WeightsObj := ⟨some d.base, some d.brain, some d.persona⟩

/-- JS truthiness of a nullable string: `null`/`undefined` and `''` are
falsy. -/
def truthyStr : Option String → Bool
  | none => false
  | some s => decide (s ≠ "")

/-- `determineWeights(personaId, personaContent)` from `src/unnamed/part_000`. -/
def determineWeights (personaId personaContent : Option String) : WeightDist :=
  let hasActivePersona :=
    truthyStr personaId && decide (personaId ≠ some "default")
      && truthyStr personaContent
      && decide (0 < (jsTrim (personaContent.getD "")).length)
  if hasActivePersona then
    ⟨0.2, 0.3, 0.5⟩
  else
    ⟨0.4, 0.6, 0.0⟩

/-- C1 counterexample: for the partial distribution supplying only base = 1.0, the
engine does not treat the missing keys as 0; the computed sum is 1.5 (brain and
persona default to 0.3 and 0.2 per key), so validation fails in both fusion
functions, contradicting the claim that the sum is 1.0 and validation passes. -/
theorem spec_C1_counterexample :
    weightedFusion "a" "b" "c" ⟨some 1, none, none⟩
      = .error (.invalidWeightDistribution (3/2))
    ∧ semanticWeightedFusion "a" "b" "c" ⟨some 1, none, none⟩
      = .error (.invalidWeightDistribution (3/2)) := by
  have hsum : weightSum ⟨some 1, none, none⟩ = 3/2 := by
    simp [weightSum, baseW, brainW, personaW]; norm_num
  have habs : |weightSum ⟨some 1, none, none⟩ - 1| > 0.001 := by
    rw [hsum, gt_iff_lt, lt_abs]; norm_num
  constructor
  · rw [weightedFusion, if_pos habs, hsum]
  · rw [semanticWeightedFusion, if_pos habs, hsum]

/-- C1 (amended): a missing key of a supplied distribution defaults to its
standard per-key default (base 0.5, brain 0.3, persona 0.2), not to 0; for a
partial distribution supplying only base = q the validation sum is q + 0.5, and
both fusion functions reject it whenever that sum is outside tolerance.  The
fully omitted distribution (all keys missing) sums to 1.0 and passes. -/
theorem spec_C1_amended (q : ℚ) (b br p : String) :
    weightSum ⟨some q, none, none⟩ = q + 0.3 + 0.2
    ∧ (|q + 1/2 - 1| > 0.001 →
        weightedFusion b br p ⟨some q, none, none⟩
          = .error (.invalidWeightDistribution (q + 1/2))
        ∧ semanticWeightedFusion b br p ⟨some q, none, none⟩
          = .error (.invalidWeightDistribution (q + 1/2)))
    ∧ (∃ s, weightedFusion b br p ⟨none, none, none⟩ = .ok s)
    ∧ (∃ s, semanticWeightedFusion b br p ⟨none, none, none⟩ = .ok s) := by
  have hsum : weightSum ⟨some q, none, none⟩ = q + 1/2 := by
    simp [weightSum, baseW, brainW, personaW]; ring
  have hdef : weightSum ⟨none, none, none⟩ = 1 := by
    simp [weightSum, baseW, brainW, personaW]; norm_num
  have hvalid : ¬ (|weightSum (⟨none, none, none⟩ : WeightsObj) - 1| > 0.001) := by
    rw [hdef]; norm_num
  refine ⟨by rw [hsum]; ring, fun h => ?_, ?_, ?_⟩
  · constructor
    · rw [weightedFusion, if_pos (by rw [hsum]; exact h), hsum]
    · rw [semanticWeightedFusion, if_pos (by rw [hsum]; exact h), hsum]
  · exact ⟨_, by rw [weightedFusion, if_neg hvalid]⟩
  · exact ⟨_, by rw [semanticWeightedFusion, if_neg hvalid]⟩

/-- Witness for the amended C1 at q = 1 (the claim's example base: 1.0). -/
theorem spec_C1_amended_witness :
    (|(1 : ℚ) + 1/2 - 1| > 0.001)
    ∧ weightedFusion "a" "b" "c" ⟨some 1, none, none⟩
        = .error (.invalidWeightDistribution ((1 : ℚ) + 1/2)) :=
  ⟨by rw [gt_iff_lt, lt_abs]; norm_num,
   ((spec_C1_amended 1 "a" "b" "c").2.1 (by rw [gt_iff_lt, lt_abs]; norm_num)).1⟩

/-- C2 code bug: the strategy table is an object literal, so the property read
falls back to Object.prototype; for the strategy names "toString" and
"constructor" the inherited member is truthy and gets invoked in place of a
fusion strategy, and no UnknownStrategy error is thrown, although neither name
is a supported strategy.  For a name such as "bogus" that is not an
Object.prototype member, the promised UnknownStrategy error does occur. -/
theorem spec_C2_code_bug :
    fusePrompts ⟨"x", "", ""⟩ "toString" ⟨none, none, none⟩ = .protoInvoke "toString"
    ∧ fusePrompts ⟨"x", "", ""⟩ "constructor" ⟨none, none, none⟩ = .protoInvoke "constructor"
    ∧ fusePrompts ⟨"x", "", ""⟩ "bogus" ⟨none, none, none⟩ = .err (.unknownStrategy "bogus")
    ∧ "toString" ≠ "weighted" ∧ "toString" ≠ "semanticWeighted" := by
  refine ⟨?_, ?_, ?_, by decide, by decide⟩
  · rw [fusePrompts,
      show fusionStrategiesLookup "toString" = some (.protoMember "toString") from by decide]
  · rw [fusePrompts,
      show fusionStrategiesLookup "constructor" = some (.protoMember "constructor") from by decide]
  · rw [fusePrompts, show fusionStrategiesLookup "bogus" = none from by decide]

/-- C3: for every distribution whose defaulted weights sum to within 0.001 of
1.0, both fusion functions return a string; outside tolerance, both fail with
InvalidWeightDistribution carrying the actual computed sum. -/
theorem spec_C3 (b br p : String) (w : WeightsObj) :
    (|weightSum w - 1| ≤ 0.001 →
      (∃ s, weightedFusion b br p w = .ok s)
      ∧ (∃ s, semanticWeightedFusion b br p w = .ok s))
    ∧ (|weightSum w - 1| > 0.001 →
      weightedFusion b br p w = .error (.invalidWeightDistribution (weightSum w))
      ∧ semanticWeightedFusion b br p w = .error (.invalidWeightDistribution (weightSum w))) := by
  constructor
  · intro h
    exact ⟨⟨_, by rw [weightedFusion, if_neg (not_lt.mpr h)]⟩,
           ⟨_, by rw [semanticWeightedFusion, if_neg (not_lt.mpr h)]⟩⟩
  · intro h
    exact ⟨by rw [weightedFusion, if_pos h], by rw [semanticWeightedFusion, if_pos h]⟩

/-- Witness for C3 at the valid distribution 0.2/0.3/0.5. -/
theorem spec_C3_witness :
    (|weightSum ⟨some 0.2, some 0.3, some 0.5⟩ - 1| ≤ 0.001)
    ∧ (∃ s, weightedFusion "B" "C" "P" ⟨some 0.2, some 0.3, some 0.5⟩ = .ok s)
    ∧ (∃ s, semanticWeightedFusion "B" "C" "P" ⟨some 0.2, some 0.3, some 0.5⟩ = .ok s) := by
  have h : |weightSum (⟨some 0.2, some 0.3, some 0.5⟩ : WeightsObj) - 1| ≤ 0.001 := by
    simp [weightSum, baseW, brainW, personaW]; norm_num
  exact ⟨h, (spec_C3 "B" "C" "P" _).1 h⟩

/-- C5: getSemanticEmphasis is total and boundary-correct on closed-open
intervals: weight at least 0.6 gives CRITICAL PRIORITY - MUST FOLLOW, weight in
[0.4, 0.6) gives HIGH IMPORTANCE, weight in [0.2, 0.4) gives MODERATE GUIDANCE,
and weight below 0.2 gives OPTIONAL CONSIDERATION. -/
theorem spec_C5 (q : ℚ) :
    (0.6 ≤ q → getSemanticEmphasis q = "CRITICAL PRIORITY - MUST FOLLOW")
    ∧ (0.4 ≤ q → q < 0.6 → getSemanticEmphasis q = "HIGH IMPORTANCE")
    ∧ (0.2 ≤ q → q < 0.4 → getSemanticEmphasis q = "MODERATE GUIDANCE")
    ∧ (q < 0.2 → getSemanticEmphasis q = "OPTIONAL CONSIDERATION") := by
  refine ⟨fun h1 => ?_, fun h1 h2 => ?_, fun h1 h2 => ?_, fun h1 => ?_⟩ <;>
    · rw [getSemanticEmphasis]
      split_ifs <;> first | rfl | linarith

/-- Witness for C5 at the boundary weights 0.6, 0.4, 0.2 and at 0. -/
theorem spec_C5_witness :
    ((0.6:ℚ) ≤ 0.6 ∧ getSemanticEmphasis 0.6 = "CRITICAL PRIORITY - MUST FOLLOW")
    ∧ ((0.4:ℚ) ≤ 0.4 ∧ (0.4:ℚ) < 0.6 ∧ getSemanticEmphasis 0.4 = "HIGH IMPORTANCE")
    ∧ ((0.2:ℚ) ≤ 0.2 ∧ (0.2:ℚ) < 0.4 ∧ getSemanticEmphasis 0.2 = "MODERATE GUIDANCE")
    ∧ ((0:ℚ) < 0.2 ∧ getSemanticEmphasis 0 = "OPTIONAL CONSIDERATION") :=
  ⟨⟨by norm_num, (spec_C5 0.6).1 (by norm_num)⟩,
   ⟨by norm_num, by norm_num, (spec_C5 0.4).2.1 (by norm_num) (by norm_num)⟩,
   ⟨by norm_num, by norm_num, (spec_C5 0.2).2.2.1 (by norm_num) (by norm_num)⟩,
   ⟨by norm_num, (spec_C5 0).2.2.2 (by norm_num)⟩⟩

def layerPriority : String → Nat
  | "PERSONA" => 0
  | "BRAIN" => 1
  | "BASE" => 2
  | _ => 3

def directiveOrder (x y : String × ℚ) : Prop :=
  y.2 < x.2 ∨ (x.2 = y.2 ∧ layerPriority x.1 < layerPriority y.1)

def tiePriority (x y : String × ℚ) : Prop :=
  x.2 = y.2 → layerPriority x.1 < layerPriority y.1

lemma mem_insertByWeight {x a : String × ℚ} {l : List (String × ℚ)} :
    x ∈ insertByWeight a l ↔ x = a ∨ x ∈ l := by
  induction l with
  | nil => simp [insertByWeight]
  | cons y ys ih =>
    rw [insertByWeight]
    split_ifs <;> simp [ih] <;> tauto

lemma mem_sortByWeightDesc {x : String × ℚ} {l : List (String × ℚ)} :
    x ∈ sortByWeightDesc l ↔ x ∈ l := by
  induction l with
  | nil => simp [sortByWeightDesc]
  | cons y ys ih => rw [sortByWeightDesc, mem_insertByWeight, ih]; simp

lemma pairwise_insertByWeight {a : String × ℚ} {l : List (String × ℚ)}
    (hl : l.Pairwise directiveOrder) (ha : ∀ y ∈ l, tiePriority a y) :
    (insertByWeight a l).Pairwise directiveOrder := by
  induction l with
  | nil => simp [insertByWeight]
  | cons y ys ih =>
    rw [List.pairwise_cons] at hl
    obtain ⟨hy, hys⟩ := hl
    rw [insertByWeight]
    split_ifs with hw
    · refine List.Pairwise.cons ?_ (List.Pairwise.cons hy hys)
      intro z hz
      rcases List.mem_cons.mp hz with rfl | hz
      · rcases lt_or_eq_of_le hw with h | h
        · exact Or.inl h
        · exact Or.inr ⟨h.symm, ha z (List.mem_cons_self _ _) h.symm⟩
      · rcases hy z hz with h | ⟨he, _⟩
        · exact Or.inl (lt_of_lt_of_le h hw)
        · rcases lt_or_eq_of_le hw with h' | h'
          · exact Or.inl (he ▸ h')
          · exact Or.inr ⟨(h'.symm.trans he), ha z (List.mem_cons_of_mem _ hz) (h'.symm.trans he)⟩
    · push_neg at hw
      refine List.Pairwise.cons ?_ (ih hys fun z hz => ha z (List.mem_cons_of_mem _ hz))
      intro z hz
      rcases mem_insertByWeight.mp hz with rfl | hz
      · exact Or.inl hw
      · exact hy z hz

lemma pairwise_sortByWeightDesc {l : List (String × ℚ)} (hl : l.Pairwise tiePriority) :
    (sortByWeightDesc l).Pairwise directiveOrder := by
  induction l with
  | nil => simp [sortByWeightDesc]
  | cons x xs ih =>
    rw [List.pairwise_cons] at hl
    rw [sortByWeightDesc]
    exact pairwise_insertByWeight (ih hl.2)
      (fun y hy => hl.1 y (mem_sortByWeightDesc.mp hy))

lemma sortedLayers_pairwise (w : WeightsObj) :
    (sortedLayers w).Pairwise directiveOrder := by
  refine pairwise_sortByWeightDesc (List.Pairwise.sublist (List.filter_sublist _) ?_)
  simp only [layerTriple, List.pairwise_cons, List.mem_cons, List.not_mem_nil, or_false]
  refine ⟨?_, ?_, ?_⟩
  · rintro z (rfl | rfl)
    · intro _; show layerPriority "PERSONA" < layerPriority "BRAIN"; decide
    · intro _; show layerPriority "PERSONA" < layerPriority "BASE"; decide
  · rintro z rfl; intro _; show layerPriority "BRAIN" < layerPriority "BASE"; decide
  · simp

lemma mem_sortedLayers {nm : String} {q : ℚ} {w : WeightsObj} :
    (nm, q) ∈ sortedLayers w ↔ (nm, q) ∈ layerTriple w ∧ 0 < q := by
  rw [sortedLayers, mem_sortByWeightDesc, List.mem_filter]
  simp

/-- C4: for every valid distribution, semanticWeightedFusion appends the
conflict-resolution directive after the layer blocks (for any texts, including
when only one layer has positive weight): a header, one numbered entry per
layer naming the layer and its numeric weight, and a closing instruction to
prefer higher-weighted layers.  The listed layers are exactly those with
weight > 0, ordered by descending weight with ties broken by the fixed
priority persona before brain before base (`directiveOrder`). -/
theorem spec_C4 (b br p : String) (w : WeightsObj) (h : |weightSum w - 1| ≤ 0.001) :
    semanticWeightedFusion b br p w
      = .ok (jsTrim (semanticBlock "BASE LAYER" b (baseW w)
          ++ semanticBlock "BRAIN CONFIGURATION" br (brainW w)
          ++ semanticBlock "PERSONA INSTRUCTIONS" p (personaW w)
          ++ ("\n[CONFLICT RESOLUTION RULES]\nWhen instructions conflict, apply this priority order:\n"
              ++ renderRuleLines (sortedLayers w) 0
              ++ "\nAlways prioritize higher-weighted layers when resolving conflicts.\n")))
    ∧ (∀ nm q, (nm, q) ∈ sortedLayers w ↔ (nm, q) ∈ layerTriple w ∧ 0 < q)
    ∧ (sortedLayers w).Pairwise directiveOrder := by
  refine ⟨?_, fun nm q => mem_sortedLayers, sortedLayers_pairwise w⟩
  rw [semanticWeightedFusion, if_neg (not_lt.mpr h)]
  rfl

/-- Witness for C4 with only the base layer positive (single-entry list). -/
theorem spec_C4_witness :
    (|weightSum ⟨some 1, some 0, some 0⟩ - 1| ≤ 0.001)
    ∧ semanticWeightedFusion "Tool rules" "" "" ⟨some 1, some 0, some 0⟩
      = .ok (jsTrim (semanticBlock "BASE LAYER" "Tool rules" (baseW ⟨some 1, some 0, some 0⟩)
          ++ semanticBlock "BRAIN CONFIGURATION" "" (brainW ⟨some 1, some 0, some 0⟩)
          ++ semanticBlock "PERSONA INSTRUCTIONS" "" (personaW ⟨some 1, some 0, some 0⟩)
          ++ ("\n[CONFLICT RESOLUTION RULES]\nWhen instructions conflict, apply this priority order:\n"
              ++ renderRuleLines (sortedLayers ⟨some 1, some 0, some 0⟩) 0
              ++ "\nAlways prioritize higher-weighted layers when resolving conflicts.\n"))) := by
  have h : |weightSum (⟨some 1, some 0, some 0⟩ : WeightsObj) - 1| ≤ 0.001 := by
    simp [weightSum, baseW, brainW, personaW]; norm_num
  exact ⟨h, (spec_C4 "Tool rules" "" "" _ h).1⟩

/-- C6: in both fusion functions a layer emits no block when its text is empty
(regardless of weight) or its weight is zero or negative (regardless of text);
emitted blocks appear in the fixed order base, brain, persona, and the final
result is the trimmed concatenation. -/
theorem spec_C6 (b br p : String) (w : WeightsObj) (h : |weightSum w - 1| ≤ 0.001) :
    weightedFusion b br p w
      = .ok (jsTrim (numericBlock "BASE_WEIGHT" b (baseW w)
          ++ numericBlock "BRAIN_WEIGHT" br (brainW w)
          ++ numericBlock "PERSONA_WEIGHT" p (personaW w)))
    ∧ semanticWeightedFusion b br p w
      = .ok (jsTrim (semanticBlock "BASE LAYER" b (baseW w)
          ++ semanticBlock "BRAIN CONFIGURATION" br (brainW w)
          ++ semanticBlock "PERSONA INSTRUCTIONS" p (personaW w)
          ++ generateConflictResolutionRules w))
    ∧ (∀ marker t q, t = "" ∨ q ≤ 0 → numericBlock marker t q = "")
    ∧ (∀ nm t q, t = "" ∨ q ≤ 0 → semanticBlock nm t q = "")
    ∧ (∀ marker t (q : ℚ), t ≠ "" → 0 < q →
        numericBlock marker t q = "[" ++ marker ++ ":" ++ toString q ++ "]\n" ++ t ++ "\n\n")
    ∧ (∀ nm t (q : ℚ), t ≠ "" → 0 < q →
        semanticBlock nm t q
          = "[" ++ nm ++ " - " ++ getSemanticEmphasis q ++ "]\n" ++ t ++ "\n\n") := by
  refine ⟨by rw [weightedFusion, if_neg (not_lt.mpr h)],
          by rw [semanticWeightedFusion, if_neg (not_lt.mpr h)],
          ?_, ?_, ?_, ?_⟩
  · rintro marker t q (rfl | hq)
    · simp [numericBlock]
    · rw [numericBlock, if_neg]; rintro ⟨-, h0⟩; exact absurd hq (not_le.mpr h0)
  · rintro nm t q (rfl | hq)
    · simp [semanticBlock]
    · rw [semanticBlock, if_neg]; rintro ⟨-, h0⟩; exact absurd hq (not_le.mpr h0)
  · intro marker t q ht hq; rw [numericBlock, if_pos ⟨ht, hq⟩]
  · intro nm t q ht hq; rw [semanticBlock, if_pos ⟨ht, hq⟩]

/-- Witness for C6: base-only weights with empty brain/persona texts. -/
theorem spec_C6_witness :
    (|weightSum ⟨some 1, some 0, some 0⟩ - 1| ≤ 0.001)
    ∧ weightedFusion "Tool rules" "" "" ⟨some 1, some 0, some 0⟩
      = .ok (jsTrim (numericBlock "BASE_WEIGHT" "Tool rules" (baseW ⟨some 1, some 0, some 0⟩)
          ++ numericBlock "BRAIN_WEIGHT" "" (brainW ⟨some 1, some 0, some 0⟩)
          ++ numericBlock "PERSONA_WEIGHT" "" (personaW ⟨some 1, some 0, some 0⟩))) := by
  have h : |weightSum (⟨some 1, some 0, some 0⟩ : WeightsObj) - 1| ≤ 0.001 := by
    simp [weightSum, baseW, brainW, personaW]; norm_num
  exact ⟨h, (spec_C6 "Tool rules" "" "" _ h).1⟩

/-- C9: the conflict-resolution directive depends only on the weights, not the
texts: a persona layer with positive weight but empty text contributes no
layer block, yet still appears as an entry of the directive's priority list. -/
theorem spec_C9 (b br : String) (w : WeightsObj)
    (hval : |weightSum w - 1| ≤ 0.001) (hp : 0 < personaW w) :
    semanticBlock "PERSONA INSTRUCTIONS" "" (personaW w) = ""
    ∧ semanticWeightedFusion b br "" w
        = .ok (jsTrim (semanticBlock "BASE LAYER" b (baseW w)
            ++ semanticBlock "BRAIN CONFIGURATION" br (brainW w)
            ++ generateConflictResolutionRules w))
    ∧ ("PERSONA", personaW w) ∈ sortedLayers w := by
  have h0 : semanticBlock "PERSONA INSTRUCTIONS" "" (personaW w) = "" := by
    simp [semanticBlock]
  refine ⟨h0, ?_, mem_sortedLayers.mpr ⟨by simp [layerTriple], hp⟩⟩
  rw [semanticWeightedFusion, if_neg (not_lt.mpr hval), h0, String.append_empty]

/-- Witness for C9 at the 0.2/0.3/0.5 distribution with empty persona text. -/
theorem spec_C9_witness :
    (|weightSum ⟨some 0.2, some 0.3, some 0.5⟩ - 1| ≤ 0.001)
    ∧ (0 < personaW ⟨some 0.2, some 0.3, some 0.5⟩)
    ∧ ("PERSONA", personaW ⟨some 0.2, some 0.3, some 0.5⟩)
        ∈ sortedLayers ⟨some 0.2, some 0.3, some 0.5⟩ := by
  have h1 : |weightSum (⟨some 0.2, some 0.3, some 0.5⟩ : WeightsObj) - 1| ≤ 0.001 := by
    simp [weightSum, baseW, brainW, personaW]; norm_num
  have h2 : 0 < personaW (⟨some 0.2, some 0.3, some 0.5⟩ : WeightsObj) := by
    simp [personaW]; norm_num
  exact ⟨h1, h2, (spec_C9 "B" "C" _ h1 h2).2.2⟩

/-- C8: the Weight Resolver returns the brain-dominant distribution
0.4/0.6/0.0 when the persona overlay is inactive (id null, empty, or
"default") or its content is null, empty or whitespace-only, and the
persona-dominant distribution 0.2/0.3/0.5 otherwise; in both cases the
distribution sums exactly to 1.0 and both fusion functions accept it. -/
theorem spec_C8 (personaId personaContent : Option String) :
    (determineWeights personaId personaContent).base
        + (determineWeights personaId personaContent).brain
        + (determineWeights personaId personaContent).persona = 1
    ∧ ((truthyStr personaId = false ∨ personaId = some "default"
        ∨ truthyStr personaContent = false ∨ jsTrim (personaContent.getD "") = "") →
        determineWeights personaId personaContent = ⟨0.4, 0.6, 0.0⟩)
    ∧ ((truthyStr personaId = true ∧ personaId ≠ some "default"
        ∧ truthyStr personaContent = true ∧ jsTrim (personaContent.getD "") ≠ "") →
        determineWeights personaId personaContent = ⟨0.2, 0.3, 0.5⟩)
    ∧ (∀ b br p, ∃ s,
        weightedFusion b br p (toWeightsObj (determineWeights personaId personaContent)) = .ok s)
    ∧ (∀ b br p, ∃ s,
        semanticWeightedFusion b br p (toWeightsObj (determineWeights personaId personaContent))
          = .ok s) := by
  have hlen : ∀ s : String, (0 < s.length ↔ s ≠ "") := by
    intro s
    rw [Nat.pos_iff_ne_zero, not_iff_not]
    exact ⟨fun h => String.ext (List.length_eq_zero.mp h), fun h => by subst h; rfl⟩
  have hinactive : (truthyStr personaId = false ∨ personaId = some "default"
      ∨ truthyStr personaContent = false ∨ jsTrim (personaContent.getD "") = "") →
      determineWeights personaId personaContent = ⟨0.4, 0.6, 0.0⟩ := by
    intro h
    rw [determineWeights]
    simp only [Bool.and_eq_true, decide_eq_true_eq] at *
    rw [if_neg]
    rintro ⟨⟨⟨h1, h2⟩, h3⟩, h4⟩
    rcases h with h | h | h | h
    · rw [h1] at h; exact Bool.noConfusion h
    · exact h2 h
    · rw [h3] at h; exact Bool.noConfusion h
    · exact (hlen _).mp h4 h
  have hactive : (truthyStr personaId = true ∧ personaId ≠ some "default"
      ∧ truthyStr personaContent = true ∧ jsTrim (personaContent.getD "") ≠ "") →
      determineWeights personaId personaContent = ⟨0.2, 0.3, 0.5⟩ := by
    rintro ⟨h1, h2, h3, h4⟩
    rw [determineWeights]
    simp only [Bool.and_eq_true, decide_eq_true_eq]
    rw [if_pos]
    exact ⟨⟨⟨h1, h2⟩, h3⟩, (hlen _).mpr h4⟩
  have hsum1 : (determineWeights personaId personaContent).base
      + (determineWeights personaId personaContent).brain
      + (determineWeights personaId personaContent).persona = 1 := by
    rw [determineWeights]
    split_ifs <;> norm_num
  have hvalid : ¬ (|weightSum (toWeightsObj (determineWeights personaId personaContent)) - 1|
      > 0.001) := by
    have : weightSum (toWeightsObj (determineWeights personaId personaContent)) = 1 := by
      rw [← hsum1]
      simp [weightSum, toWeightsObj, baseW, brainW, personaW]
    rw [this]
    norm_num
  exact ⟨hsum1, hinactive, hactive,
    fun b br p => ⟨_, by rw [weightedFusion, if_neg hvalid]⟩,
    fun b br p => ⟨_, by rw [semanticWeightedFusion, if_neg hvalid]⟩⟩

/-- Witness for C8: an active persona and an absent one. -/
theorem spec_C8_witness :
    ((truthyStr (some "alice") = true ∧ (some "alice" : Option String) ≠ some "default"
      ∧ truthyStr (some "be brief") = true
      ∧ jsTrim ((some "be brief" : Option String).getD "") ≠ "")
      ∧ determineWeights (some "alice") (some "be brief") = ⟨0.2, 0.3, 0.5⟩)
    ∧ ((truthyStr (none : Option String) = false)
      ∧ determineWeights none (some "be brief") = ⟨0.4, 0.6, 0.0⟩) :=
  ⟨⟨by decide, (spec_C8 (some "alice") (some "be brief")).2.2.1 (by decide)⟩,
   ⟨by decide, (spec_C8 none (some "be brief")).2.1 (by decide)⟩⟩

lemma mem_pairConflicts {pr : LayerPair} {t l1 l2 : String} :
    (∃ d, ConflictRecord.mk t l1 l2 d ∈ pairConflicts pr) ↔
      pr.layer1 = l1 ∧ pr.layer2 = l2 ∧ pr.text1 ≠ "" ∧ pr.text2 ≠ ""
      ∧ ∃ pat ∈ opposingPatterns, pat.type = t ∧ crossMatch pat pr.text1 pr.text2 := by
  rw [pairConflicts]
  split_ifs with hne
  · simp only [List.mem_map, List.mem_filter, ConflictRecord.mk.injEq]
    constructor
    · rintro ⟨d, pat, ⟨hpat, hcm⟩, ht, h1, h2, -⟩
      exact ⟨h1, h2, hne.1, hne.2, pat, hpat, ht, hcm⟩
    · rintro ⟨h1, h2, -, -, pat, hpat, ht, hcm⟩
      exact ⟨_, pat, ⟨hpat, hcm⟩, ht, h1, h2, rfl⟩
  · push_neg at hne
    simp only [List.not_mem_nil, exists_false, false_iff, not_and]
    intro h1 h2 ht1 ht2
    rcases eq_or_ne pr.text1 "" with h | h
    · exact absurd h ht1
    · exact absurd (hne h) ht2

lemma pairConflicts_eq_nil {pr : LayerPair} :
    pairConflicts pr = []
      ↔ (pr.text1 ≠ "" → pr.text2 ≠ "" →
          ∀ pat ∈ opposingPatterns, ¬ (crossMatch pat pr.text1 pr.text2 = true)) := by
  rw [pairConflicts]
  split_ifs with hne
  · simp only [List.map_eq_nil_iff, List.filter_eq_nil_iff]
    constructor
    · intro h _ _ pat hpat; exact h pat hpat
    · intro h pat hpat; exact h hne.1 hne.2 pat hpat
  · push_neg at hne
    simp only [true_iff]
    intro ht1 ht2
    exact absurd (hne ht1) ht2

/-- C7: detectConflicts is total, and a record with a given type and layer pair
is emitted exactly when that pair of layers (in the fixed pair enumeration) has
two non-empty texts and, for the opposition pattern of that type, one layer's
text matches the first pattern while the other's matches the second, in either
assignment of layers to patterns; the result is empty exactly when no pair and
pattern cross-match. -/
theorem spec_C7 (bp brp pp : String) :
    (∀ t l1 l2,
      (∃ d, ConflictRecord.mk t l1 l2 d ∈ detectConflicts bp brp pp) ↔
      (∃ pr ∈ layerPairs bp brp pp, pr.layer1 = l1 ∧ pr.layer2 = l2
        ∧ pr.text1 ≠ "" ∧ pr.text2 ≠ ""
        ∧ ∃ pat ∈ opposingPatterns, pat.type = t
          ∧ ((patternTest pat.pattern1 pr.text1 ∧ patternTest pat.pattern2 pr.text2)
            ∨ (patternTest pat.pattern2 pr.text1 ∧ patternTest pat.pattern1 pr.text2))))
    ∧ (detectConflicts bp brp pp = []
        ↔ ∀ pr ∈ layerPairs bp brp pp, pr.text1 ≠ "" → pr.text2 ≠ "" →
            ∀ pat ∈ opposingPatterns, ¬ (crossMatch pat pr.text1 pr.text2 = true)) := by
  constructor
  · intro t l1 l2
    rw [detectConflicts]
    calc (∃ d, ConflictRecord.mk t l1 l2 d ∈ (layerPairs bp brp pp).flatMap pairConflicts)
        ↔ ∃ pr ∈ layerPairs bp brp pp, ∃ d, ConflictRecord.mk t l1 l2 d ∈ pairConflicts pr := by
          simp only [List.mem_flatMap]
          constructor
          · rintro ⟨d, pr, hpr, hmem⟩; exact ⟨pr, hpr, d, hmem⟩
          · rintro ⟨pr, hpr, d, hmem⟩; exact ⟨d, pr, hpr, hmem⟩
      _ ↔ _ := by
          apply exists_congr; intro pr
          apply and_congr_right; intro _
          rw [mem_pairConflicts]
          apply and_congr_right; intro _
          apply and_congr_right; intro _
          apply and_congr_right; intro _
          apply and_congr_right; intro _
          apply exists_congr; intro pat
          apply and_congr_right; intro _
          apply and_congr_right; intro _
          simp [crossMatch, Bool.or_eq_true, Bool.and_eq_true]
  · rw [detectConflicts, List.flatMap_eq_nil_iff]
    exact forall₂_congr fun pr _ => pairConflicts_eq_nil

def layerIndex : String → Nat
  | "base" => 0
  | "brain" => 1
  | "persona" => 2
  | _ => 3

def conflictKey (c : ConflictRecord) : String × String × String := (c.type, c.layer1, c.layer2)

lemma pairConflicts_length_le (pr : LayerPair) : (pairConflicts pr).length ≤ 4 := by
  rw [pairConflicts]
  split_ifs
  · rw [List.length_map]
    exact le_trans (List.length_filter_le _ _) (by decide)
  · simp

lemma pairConflicts_fields {c : ConflictRecord} {pr : LayerPair} (h : c ∈ pairConflicts pr) :
    c.layer1 = pr.layer1 ∧ c.layer2 = pr.layer2
      ∧ c.type ∈ ["verbosity", "tone", "speed", "approach"] := by
  rw [pairConflicts] at h
  split_ifs at h
  · obtain ⟨pat, hpat, rfl⟩ := List.mem_map.mp h
    refine ⟨rfl, rfl, ?_⟩
    have hmem : pat ∈ opposingPatterns := (List.mem_filter.mp hpat).1
    fin_cases hmem <;> simp
  · exact absurd h (List.not_mem_nil _)

lemma pairConflicts_keys_nodup (pr : LayerPair) :
    ((pairConflicts pr).map conflictKey).Nodup := by
  rw [pairConflicts]
  split_ifs
  · rw [List.map_map]
    have hrw : ((opposingPatterns.filter fun pat => crossMatch pat pr.text1 pr.text2).map
          ((conflictKey ∘ fun pat =>
            (⟨pat.type, pr.layer1, pr.layer2,
              "Conflicting " ++ pat.type ++ " instructions between "
                ++ pr.layer1 ++ " and " ++ pr.layer2⟩ : ConflictRecord))))
        = ((opposingPatterns.filter fun pat => crossMatch pat pr.text1 pr.text2).map
            (·.type)).map (fun ty => (ty, pr.layer1, pr.layer2)) := by
      rw [List.map_map]; rfl
    rw [hrw]
    refine List.Nodup.map ?_ ?_
    · intro x y hxy
      simpa using hxy
    · refine List.Nodup.sublist (List.Sublist.map _ (List.filter_sublist _)) ?_
      decide
  · simp

lemma pairConflicts_key_layers {x : String × String × String} {pr : LayerPair}
    (h : x ∈ (pairConflicts pr).map conflictKey) :
    x.2.1 = pr.layer1 ∧ x.2.2 = pr.layer2 := by
  obtain ⟨c, hc, rfl⟩ := List.mem_map.mp h
  obtain ⟨h1, h2, -⟩ := pairConflicts_fields hc
  exact ⟨h1, h2⟩

/-- C10: every detectConflicts result has at most 12 records, at most one
record per layer pair and conflict type (the (type, layer1, layer2) keys are
duplicate-free), each type is one of the four known types, and in every record
layer1 strictly precedes layer2 in the fixed order base, brain, persona. -/
theorem spec_C10 (bp brp pp : String) :
    (detectConflicts bp brp pp).length ≤ 12
    ∧ (∀ c ∈ detectConflicts bp brp pp,
        c.type ∈ ["verbosity", "tone", "speed", "approach"]
        ∧ (c.layer1, c.layer2) ∈ [("base", "brain"), ("base", "persona"), ("brain", "persona")]
        ∧ layerIndex c.layer1 < layerIndex c.layer2)
    ∧ ((detectConflicts bp brp pp).map conflictKey).Nodup := by
  refine ⟨?_, ?_, ?_⟩
  · rw [detectConflicts, layerPairs]
    simp only [List.flatMap_cons, List.flatMap_nil, List.append_nil, List.length_append]
    have h1 := pairConflicts_length_le ⟨"base", "brain", bp, brp⟩
    have h2 := pairConflicts_length_le ⟨"base", "persona", bp, pp⟩
    have h3 := pairConflicts_length_le ⟨"brain", "persona", brp, pp⟩
    omega
  · intro c hc
    rw [detectConflicts] at hc
    obtain ⟨pr, hpr, hcpr⟩ := List.mem_flatMap.mp hc
    obtain ⟨h1, h2, h3⟩ := pairConflicts_fields hcpr
    rw [layerPairs] at hpr
    simp only [List.mem_cons, List.not_mem_nil, or_false] at hpr
    refine ⟨h3, ?_⟩
    rcases hpr with rfl | rfl | rfl
    · have hc1 : c.layer1 = "base" := h1
      have hc2 : c.layer2 = "brain" := h2
      rw [hc1, hc2]; exact ⟨by decide, by decide⟩
    · have hc1 : c.layer1 = "base" := h1
      have hc2 : c.layer2 = "persona" := h2
      rw [hc1, hc2]; exact ⟨by decide, by decide⟩
    · have hc1 : c.layer1 = "brain" := h1
      have hc2 : c.layer2 = "persona" := h2
      rw [hc1, hc2]; exact ⟨by decide, by decide⟩
  · rw [detectConflicts, layerPairs]
    simp only [List.flatMap_cons, List.flatMap_nil, List.append_nil, List.map_append]
    rw [List.nodup_append, List.nodup_append]
    refine ⟨pairConflicts_keys_nodup _,
      ⟨pairConflicts_keys_nodup _, pairConflicts_keys_nodup _, ?_⟩, ?_⟩
    · intro x hx hx'
      have a := pairConflicts_key_layers hx
      have b := pairConflicts_key_layers hx'
      have hbp : ("base" : String) = "brain" := a.1.symm.trans b.1
      exact absurd hbp (by decide)
    · intro x hx hx'
      have a := pairConflicts_key_layers hx
      rcases List.mem_append.mp hx' with h | h
      · have b := pairConflicts_key_layers h
        have hbp : ("brain" : String) = "persona" := a.2.symm.trans b.2
        exact absurd hbp (by decide)
      · have b := pairConflicts_key_layers h
        have hbp : ("base" : String) = "brain" := a.1.symm.trans b.1
        exact absurd hbp (by decide)

/-- Witness for C7 at the spec's example texts: a verbosity conflict between
base and persona. -/
theorem spec_C7_witness :
    ∃ d, ConflictRecord.mk "verbosity" "base" "persona" d
      ∈ detectConflicts "Be verbose and detailed." "Maintain moderate length."
          "Be extremely concise." :=
  ((spec_C7 "Be verbose and detailed." "Maintain moderate length."
      "Be extremely concise.").1 "verbosity" "base" "persona").mpr
    ⟨⟨"base", "persona", "Be verbose and detailed.", "Be extremely concise."⟩,
      by decide, rfl, rfl, by decide, by decide,
      ⟨["verbose", "detailed", "comprehensive"], ["concise", "brief", "short"], "verbosity"⟩,
      by decide, rfl, Or.inl ⟨by decide, by decide⟩⟩

/-- Witness for C10 on a concrete detected conflict. -/
theorem spec_C10_witness :
    ConflictRecord.mk "verbosity" "base" "persona"
        "Conflicting verbosity instructions between base and persona"
      ∈ detectConflicts "verbose" "" "concise"
    ∧ ("verbosity" : String) ∈ ["verbosity", "tone", "speed", "approach"] :=
  have hmem : ConflictRecord.mk "verbosity" "base" "persona"
      "Conflicting verbosity instructions between base and persona"
      ∈ detectConflicts "verbose" "" "concise" := by decide
  ⟨hmem, ((spec_C10 "verbose" "" "concise").2.1 _ hmem).1⟩
